import Mathlib

/-!
Shallow embedding of the event-management REST API (Express + Prisma routes
in `Routes/authRoutes.js`, `Routes/passwordRoutes.js`, `Routes/eventRoutes.js`
and `Utils/validate.js`).  Database tables become lists of records, each
route handler becomes a pure function from the database state and its
request parameters to the new state and an HTTP result.  The bcrypt and jwt
collaborators are modelled by their documented contracts.
-/

namespace NodeEvent

/-- HTTP outcome of a handler: either a success response with a status code
and a JSON body, or an error response (via `res.status(..).json` or an
`AppError` routed through the central error handler) with a status code and
message. -/
inductive ApiResult (α : Type) where
  | ok (status : Nat) (body : α)
  | err (status : Nat) (message : String)
deriving DecidableEq, Repr

/-- Model of `bcrypt.hash`: a one-way digest determined by the plaintext.
The digest is modelled as a tagged copy of the plaintext; the tag makes the
digest distinct from every plaintext of the same content.  The cost factor
does not affect which plaintexts verify against the digest, so it is not
recorded. -/
def bcryptHash (password : String) (_cost : Nat) : String :=
  "$2b$" ++ password

/-- Model of `bcrypt.compare`: succeeds exactly when the digest was produced
from this plaintext (at any cost factor). -/
def bcryptCompare (password hash : String) : Bool :=
  hash == bcryptHash password 12

/-- User row (`User` table): id, unique email, stored password hash, role
string, and the nullable password-reset token/expiry pair. -/
structure User where
  id : Nat
  email : String
  password : String
  role : String
  resetToken : Option String
  resetTokenExpiry : Option Int
deriving DecidableEq, Repr

/-- Event row (`Event` table). `date` is the epoch-millisecond timestamp. -/
structure Event where
  id : Nat
  title : String
  description : String
  date : Int
  location : String
  organizerId : Nat
  category : String
deriving DecidableEq, Repr

/-- Registration row (`Registration` table), unique on (userId, eventId). -/
structure Registration where
  id : Nat
  userId : Nat
  eventId : Nat
deriving DecidableEq, Repr

/-- Feedback row (`Feedback` table), one per (userId, eventId) pair. -/
structure Feedback where
  id : Nat
  userId : Nat
  eventId : Nat
  feedback : String
deriving DecidableEq, Repr

/-- The relational store: one list per table, in insertion order. -/
structure DB where
  users : List User
  events : List Event
  registrations : List Registration
  feedbacks : List Feedback
deriving DecidableEq, Repr

/- ----------------------------------------------------------------
   Utils/validate.js
   ---------------------------------------------------------------- -/

/-- All decompositions of `cs` as `pre ++ ch :: post`, used to give the
backtracking semantics of the email regular expression. -/
def splitsAt (ch : Char) : List Char → List (List Char × List Char)
  | [] => []
  | c :: rest =>
    let tails := (splitsAt ch rest).map fun p => (c :: p.1, p.2)
    if c = ch then ([], rest) :: tails else tails

/-- One or more characters, none of which is whitespace or `@`
(the `[^\s@]+` atom of the email regex). -/
def regexAtom (l : List Char) : Bool :=
  !l.isEmpty && l.all fun c => !c.isWhitespace && c ≠ '@'

/-- Function validateEmail of Utils/validate.js: the string matches
`^[^\s@]+@[^\s@]+\.[^\s@]+$`, i.e. it splits as `local@body.tail` with all
three parts nonempty and free of whitespace and `@`. -/
def validateEmail (email : String) : Bool :=
  (splitsAt '@' email.toList).any fun p =>
    regexAtom p.1 &&
      (splitsAt '.' p.2).any fun q => regexAtom q.1 && regexAtom q.2

/-- Function validatePassword of Utils/validate.js: at least 8 characters. -/
def validatePassword (password : String) : Bool :=
  password.length ≥ 8

/-- The `validateRegisterData` middleware: email, then password, then role
membership; `none` means validation passed. -/
def validateRegisterData (email password role : String) : Option (Nat × String) :=
  if !validateEmail email then some (400, "Valid email is required")
  else if !validatePassword password then
    some (400, "Password must be at least 8 characters long")
  else if !(["ADMIN", "ORGANIZER", "ATTENDEE"].contains role) then
    some (400, "Valid role is required")
  else none

/- ----------------------------------------------------------------
   Routes/authRoutes.js
   ---------------------------------------------------------------- -/

/-- Lookup prisma.user.findUnique by the unique email column. -/
def findUserByEmail (db : DB) (email : String) : Option User :=
  db.users.find? fun u => u.email == email

/-- POST /auth/register: run the validation middleware, hash the password at
cost 12, create the user (the unique constraint on email surfaces as a P2002
duplicate error), and answer 201 with the full created row. -/
def registerUser (db : DB) (freshId : Nat) (email password role : String) :
    DB × ApiResult User :=
  match validateRegisterData email password role with
  | some e => (db, .err e.1 e.2)
  | none =>
    if db.users.any fun u => u.email == email then
      (db, .err 400 "Email already exists")
    else
      let user : User :=
        { id := freshId, email := email, password := bcryptHash password 12,
          role := role, resetToken := none, resetTokenExpiry := none }
      ({ db with users := db.users ++ [user] }, .ok 201 user)

/-- The signed bearer token issued by jwt.sign with the user id as its only
claim and a time-to-live of one hour. -/
structure Token where
  id : Nat
  expiresInSeconds : Nat
deriving DecidableEq, Repr

/-- POST /auth/login: look the user up by email and compare the password
against the stored hash; both failure causes share one error. -/
def loginUser (db : DB) (email password : String) : ApiResult Token :=
  match findUserByEmail db email with
  | none => .err 401 "Incorrect email or password"
  | some user =>
    if !bcryptCompare password user.password then
      .err 401 "Incorrect email or password"
    else
      .ok 200 { id := user.id, expiresInSeconds := 3600 }

/- ----------------------------------------------------------------
   Routes/passwordRoutes.js
   ---------------------------------------------------------------- -/

/-- Update prisma.user.update by id: rewrite every row carrying this id
(the id is the unique key of the table). -/
def updateUserById (users : List User) (id : Nat) (f : User → User) : List User :=
  users.map fun u => if u.id = id then f u else u

/-- POST /password/password-reset: look the user up by email; persist a fresh
token and an expiry of now + 3600000 ms, then hand the mail to the
transporter, whose callback picks the response.  `deliveryOk` is the
outcome of the collaborator; the persisted state does not depend on it. -/
def requestReset (db : DB) (email freshToken : String) (now : Int)
    (deliveryOk : Bool) : DB × ApiResult String :=
  match findUserByEmail db email with
  | none => (db, .err 404 "User not found")
  | some user =>
    let db1 := { db with
      users := updateUserById db.users user.id fun u =>
        { u with resetToken := some freshToken,
                 resetTokenExpiry := some (now + 3600000) } }
    if deliveryOk then (db1, .ok 200 "Password reset email sent")
    else (db1, .err 500 "Failed to send password reset email")

/-- Lookup prisma.user.findFirst by the resetToken column. -/
def findUserByResetToken (db : DB) (token : String) : Option User :=
  db.users.find? fun u => u.resetToken == some token

/-- The JavaScript comparison `user.resetTokenExpiry < new Date()`: a null
expiry coerces to 0, a date compares by its epoch milliseconds. -/
def expiryExpired (expiry : Option Int) (now : Int) : Bool :=
  expiry.getD 0 < now

/-- POST /password/reset-password/:resetToken: find the holder of the token;
reject a missing holder or a past expiry with one 400 error; otherwise hash
the new password at cost 10, store it and null out both reset fields. -/
def consumeReset (db : DB) (resetToken newPassword : String) (now : Int) :
    DB × ApiResult String :=
  match findUserByResetToken db resetToken with
  | none => (db, .err 400 "Invalid or expired reset token")
  | some user =>
    if expiryExpired user.resetTokenExpiry now then
      (db, .err 400 "Invalid or expired reset token")
    else
      ({ db with users := updateUserById db.users user.id fun u =>
          { u with password := bcryptHash newPassword 10,
                   resetToken := none, resetTokenExpiry := none } },
       .ok 200 "Password reset successful")

/- ----------------------------------------------------------------
   Routes/eventRoutes.js
   ---------------------------------------------------------------- -/

/-- Lookup prisma.event.findUnique by the event id. -/
def findEventById (db : DB) (eventId : Nat) : Option Event :=
  db.events.find? fun e => e.id == eventId

/-- The body fields destructured by the update handler. -/
structure EventPatch where
  title : String
  description : String
  date : Int
  location : String
deriving DecidableEq, Repr

/-- PUT /events/:eventId: attendees are rejected outright; then the event is
looked up (404 when absent); then a requester who neither owns the event nor
is an admin is rejected; otherwise the patch is applied. -/
def updateEvent (db : DB) (requester : User) (eventId : Nat)
    (patch : EventPatch) : DB × ApiResult Event :=
  if requester.role == "ATTENDEE" then
    (db, .err 403 "You do not have permission to perform this action")
  else
    match findEventById db eventId with
    | none => (db, .err 404 "Event not found")
    | some event =>
      if event.organizerId != requester.id && requester.role != "ADMIN" then
        (db, .err 403 "Forbidden: You do not have permission to update this event")
      else
        let updated := { event with
          title := patch.title, description := patch.description,
          date := patch.date, location := patch.location }
        ({ db with events := db.events.map fun e =>
            if e.id = eventId then
              { e with title := patch.title, description := patch.description,
                       date := patch.date, location := patch.location }
            else e },
         .ok 200 updated)

/-- DELETE /events/:eventId: the same permission ladder as update; on
success the registrations referencing the event are deleted first, then the
event row itself. -/
def deleteEvent (db : DB) (requester : User) (eventId : Nat) :
    DB × ApiResult String :=
  if requester.role == "ATTENDEE" then
    (db, .err 403 "You do not have permission to perform this action")
  else
    match findEventById db eventId with
    | none => (db, .err 404 "Event not found")
    | some event =>
      if event.organizerId != requester.id && requester.role != "ADMIN" then
        (db, .err 403 "Forbidden: You do not have permission to delete this event")
      else
        ({ db with
            registrations := db.registrations.filter fun r => r.eventId != eventId,
            events := db.events.filter fun e => e.id != eventId },
         .ok 200 "Event deleted successfully")

/-- Sort direction passed to `orderBy`. -/
inductive SortDir where
  | asc
  | desc
deriving DecidableEq, Repr

/-- JavaScript `toLowerCase`, character by character. -/
def toLowerJS (s : String) : String :=
  String.mk (s.toList.map Char.toLower)

/-- The direction chosen by the list handler: descending when the
lowercased sortOrder compares equal to the string desc, ascending
otherwise. -/
def sortDirOf (sortOrder : Option String) : SortDir :=
  match sortOrder with
  | some s => if toLowerJS s == "desc" then .desc else .asc
  | none => .asc

/-- The `orderBy` object built by GET /events: present only when `sortBy`
is given, pairing the requested field with the chosen direction. -/
def buildOrderBy (sortBy sortOrder : Option String) :
    Option (String × SortDir) :=
  match sortBy with
  | some field => some (field, sortDirOf sortOrder)
  | none => none

/-- The digit run read by `parseInt` after sign handling: `none` when the
first character is not a decimal digit (the NaN case). -/
def parseDigits (cs : List Char) : Option Nat :=
  let ds := cs.takeWhile Char.isDigit
  if ds.isEmpty then none
  else some (ds.foldl (fun a c => a * 10 + (c.toNat - 48)) 0)

/-- JavaScript `parseInt(s, 10)`: skip leading whitespace, read an optional
sign and then the longest leading digit run; NaN (here `none`) when no digit
follows. -/
def parseIntJS (s : String) : Option Int :=
  match s.toList.dropWhile Char.isWhitespace with
  | '-' :: rest => (parseDigits rest).map fun n => -(n : Int)
  | '+' :: rest => (parseDigits rest).map fun n => (n : Int)
  | cs => (parseDigits cs).map fun n => (n : Int)

/-- The order-by-id-ascending relation of the paginated listing. -/
def byIdLe (a b : Event) : Prop := a.id ≤ b.id

instance : DecidableRel byIdLe := fun a b => Nat.decLe a.id b.id

instance : IsTotal Event byIdLe := ⟨fun a b => Nat.le_total a.id b.id⟩

instance : IsTrans Event byIdLe := ⟨fun _ _ _ => Nat.le_trans⟩

/-- GET /events/page/:pageNumber: parse the path parameter with `parseInt`;
reject NaN or a value below 1 with a 400; otherwise serve 10 events ordered
by id ascending, skipping (pageNumber - 1) * 10. -/
def listPage (db : DB) (pageParam : String) : ApiResult (List Event) :=
  match parseIntJS pageParam with
  | none => .err 400 "Invalid page number"
  | some p =>
    if p < 1 then .err 400 "Invalid page number"
    else
      let sorted := db.events.insertionSort byIdLe
      .ok 200 ((sorted.drop ((p - 1).toNat * 10)).take 10)

/-- Lookup prisma.registration.findUnique by the composite userId_eventId key. -/
def findRegistration (db : DB) (userId eventId : Nat) : Option Registration :=
  db.registrations.find? fun r => r.userId == userId && r.eventId == eventId

/-- POST /events/:eventId/register: 404 when the event is absent, 400 when a
registration for the (user, event) pair already exists, otherwise create the
row. -/
def registerForEvent (db : DB) (freshId : Nat) (userId eventId : Nat) :
    DB × ApiResult Registration :=
  match findEventById db eventId with
  | none => (db, .err 404 "Event not found")
  | some _ =>
    match findRegistration db userId eventId with
    | some _ => (db, .err 400 "You are already registered for this event")
    | none =>
      let reg : Registration := { id := freshId, userId := userId, eventId := eventId }
      ({ db with registrations := db.registrations ++ [reg] }, .ok 201 reg)

/-- Number of Registration rows held for a (user, event) pair. -/
def regCount (db : DB) (userId eventId : Nat) : Nat :=
  (db.registrations.filter fun r => r.userId == userId && r.eventId == eventId).length

/-- Lookup prisma.feedback.findUnique by the composite userId_eventId key. -/
def findFeedback (db : DB) (userId eventId : Nat) : Option Feedback :=
  db.feedbacks.find? fun f => f.userId == userId && f.eventId == eventId

/-- POST /events/:eventId/feedback: 400 unless the pair is registered; then
either overwrite the existing feedback row (update by its id, 200) or insert
a new row (201). -/
def submitFeedback (db : DB) (freshId : Nat) (userId eventId : Nat)
    (text : String) : DB × ApiResult Feedback :=
  match findRegistration db userId eventId with
  | none => (db, .err 400 "You are not registered for this event")
  | some _ =>
    match findFeedback db userId eventId with
    | some existing =>
      ({ db with feedbacks := db.feedbacks.map fun f =>
          if f.id = existing.id then { f with feedback := text } else f },
       .ok 200 { existing with feedback := text })
    | none =>
      let fresh : Feedback :=
        { id := freshId, userId := userId, eventId := eventId, feedback := text }
      ({ db with feedbacks := db.feedbacks ++ [fresh] }, .ok 201 fresh)

/-- Number of Feedback rows held for a (user, event) pair. -/
def feedbackCount (db : DB) (userId eventId : Nat) : Nat :=
  (db.feedbacks.filter fun f => f.userId == userId && f.eventId == eventId).length

/- ----------------------------------------------------------------
   Helper lemmas
   ---------------------------------------------------------------- -/

theorem find_eq_some_of_unique {α : Type} (p : α → Bool) (l : List α) (u : α)
    (hu : u ∈ l) (hp : p u = true) (huniq : ∀ v ∈ l, p v = true → v = u) :
    l.find? p = some u := by
  induction l with
  | nil => cases hu
  | cons a t ih =>
    by_cases ha : p a = true
    · rw [List.find?_cons_of_pos _ ha, huniq a (List.mem_cons_self a t) ha]
    · rw [List.find?_cons_of_neg _ ha]
      have hut : u ∈ t := by
        rcases List.mem_cons.mp hu with h | h
        · exact absurd (h ▸ hp) ha
        · exact h
      exact ih hut fun v hv hpv => huniq v (List.mem_cons_of_mem a hv) hpv

theorem find_append_of_left_none {α : Type} (p : α → Bool) (l1 l2 : List α)
    (h : l1.find? p = none) : (l1 ++ l2).find? p = l2.find? p := by
  rw [List.find?_append, h, Option.none_or]

theorem length_filter_map_of_pres {α : Type} (g : α → α) (p : α → Bool)
    (l : List α) (h : ∀ x, p (g x) = p x) :
    ((l.map g).filter p).length = (l.filter p).length := by
  induction l with
  | nil => rfl
  | cons a t ih =>
    simp only [List.map_cons, List.filter_cons, h a]
    cases hp : p a <;> simp [ih]

theorem bcryptHash_ne_plaintext (password : String) (cost : Nat) :
    bcryptHash password cost ≠ password := by
  intro h
  have hlen := congrArg String.length h
  rw [bcryptHash, String.length_append] at hlen
  have h4 : ("$2b$" : String).length = 4 := rfl
  rw [h4] at hlen
  omega

/- ----------------------------------------------------------------
   Claims
   ---------------------------------------------------------------- -/

/-- C1, counterexample: on the concrete call
register("a@x.com", "password123", "ATTENDEE") against an empty store, the
201 response body carries the full created row, whose password field equals
the stored bcrypt hash — the stored one-way hash is returned to the caller,
not excluded from the response. -/
theorem C1_counterexample :
    (registerUser ⟨[], [], [], []⟩ 1 "a@x.com" "password123" "ATTENDEE").2 =
      .ok 201 ⟨1, "a@x.com", bcryptHash "password123" 12, "ATTENDEE", none, none⟩ ∧
    (registerUser ⟨[], [], [], []⟩ 1 "a@x.com" "password123" "ATTENDEE").1.users =
      [⟨1, "a@x.com", bcryptHash "password123" 12, "ATTENDEE", none, none⟩] ∧
    bcryptHash "password123" 12 ≠ "" := by
  refine ⟨rfl, rfl, by decide⟩

/-- C1 (amended): for every successful register(email, password, role) call,
the HTTP 201 response body contains the created identity with its password
field set to the stored one-way hash of the password — the hash is included
in the response (it differs from the plaintext, which is never stored), and
the same row is persisted in the store. -/
theorem C1_register_response_contains_hash (db : DB) (freshId : Nat)
    (email password role : String) (u : User)
    (h : (registerUser db freshId email password role).2 = .ok 201 u) :
    u.password = bcryptHash password 12 ∧
    u.password ≠ password ∧
    u ∈ (registerUser db freshId email password role).1.users := by
  cases hv : validateRegisterData email password role with
  | some e =>
    simp only [registerUser, hv] at h
    exact absurd h (by simp)
  | none =>
    simp only [registerUser, hv] at h ⊢
    by_cases hd : (db.users.any fun v => v.email == email) = true
    · simp only [hd, if_true] at h
      exact absurd h (by simp)
    · simp only [hd, Bool.false_eq_true, if_false] at h ⊢
      simp only [ApiResult.ok.injEq, true_and] at h
      subst h
      refine ⟨rfl, bcryptHash_ne_plaintext password 12, ?_⟩
      simp

/-- C1 witness. -/
theorem C1_witness :
    (⟨1, "a@x.com", bcryptHash "password123" 12, "ATTENDEE", none, none⟩ :
        User).password = bcryptHash "password123" 12 ∧
    (⟨1, "a@x.com", bcryptHash "password123" 12, "ATTENDEE", none, none⟩ :
        User).password ≠ "password123" :=
  ⟨(C1_register_response_contains_hash ⟨[], [], [], []⟩ 1 "a@x.com"
      "password123" "ATTENDEE" _ rfl).1,
   (C1_register_response_contains_hash ⟨[], [], [], []⟩ 1 "a@x.com"
      "password123" "ATTENDEE" _ rfl).2.1⟩

/-- C2: when no user carries the requested email, or the password does not
verify against the stored hash of the user that does, login answers with the
very same 401 error and message, so the two failure causes cannot be told
apart by the caller. -/
theorem C2_login_failures_indistinguishable (db : DB) (email password : String)
    (h : (∀ u ∈ db.users, u.email ≠ email) ∨
         (∃ u, findUserByEmail db email = some u ∧
               bcryptCompare password u.password = false)) :
    loginUser db email password = .err 401 "Incorrect email or password" := by
  unfold loginUser
  rcases h with h | ⟨u, hu, hc⟩
  · have hnone : findUserByEmail db email = none := by
      unfold findUserByEmail
      rw [List.find?_eq_none]
      intro x hx
      simp [h x hx]
    rw [hnone]
  · rw [hu]
    simp [hc]

/-- C2 witness. -/
theorem C2_witness :
    loginUser ⟨[], [], [], []⟩ "a@x.com" "pw123456" =
      .err 401 "Incorrect email or password" ∧
    loginUser ⟨[⟨1, "a@x.com", bcryptHash "secret99" 12, "ATTENDEE",
        none, none⟩], [], [], []⟩ "a@x.com" "wrongpwd" =
      .err 401 "Incorrect email or password" := by
  constructor
  · exact C2_login_failures_indistinguishable _ _ _ (Or.inl (by simp))
  · exact C2_login_failures_indistinguishable _ _ _
      (Or.inr ⟨⟨1, "a@x.com", bcryptHash "secret99" 12, "ATTENDEE",
        none, none⟩, rfl, by decide⟩)

theorem findUserByResetToken_eq (db : DB) (t : String) (u : User)
    (hu : u ∈ db.users) (hold : u.resetToken = some t)
    (huniq : ∀ v ∈ db.users, v.resetToken = some t → v = u) :
    findUserByResetToken db t = some u := by
  apply find_eq_some_of_unique _ _ _ hu
  · simp [hold]
  · intro v hv hpv
    exact huniq v hv (by simpa using hpv)

theorem consumeReset_success (db : DB) (u : User) (t newPw : String)
    (now : Int)
    (hfind : findUserByResetToken db t = some u)
    (hunexp : expiryExpired u.resetTokenExpiry now = false) :
    consumeReset db t newPw now =
      ({ db with users := updateUserById db.users u.id fun v =>
          { v with password := bcryptHash newPw 10,
                   resetToken := none, resetTokenExpiry := none } },
       .ok 200 "Password reset successful") := by
  simp only [consumeReset, hfind, hunexp, Bool.false_eq_true, if_false]

theorem consumeReset_no_holder (db : DB) (t pw : String) (now : Int)
    (h : ∀ v ∈ db.users, v.resetToken ≠ some t) :
    consumeReset db t pw now = (db, .err 400 "Invalid or expired reset token") := by
  have hnone : findUserByResetToken db t = none := by
    unfold findUserByResetToken
    rw [List.find?_eq_none]
    intro v hv
    simp [h v hv]
  simp only [consumeReset, hnone]

theorem consumeReset_expired (db : DB) (u : User) (t pw : String) (now : Int)
    (hfind : findUserByResetToken db t = some u)
    (hexp : expiryExpired u.resetTokenExpiry now = true) :
    consumeReset db t pw now = (db, .err 400 "Invalid or expired reset token") := by
  simp only [consumeReset, hfind, hexp, if_true]

theorem consumeReset_clears (db : DB) (u : User) (t newPw : String)
    (huniq : ∀ v ∈ db.users, v.resetToken = some t → v = u) :
    ∀ v ∈ updateUserById db.users u.id (fun w =>
        { w with password := bcryptHash newPw 10,
                 resetToken := none, resetTokenExpiry := none }),
      v.resetToken ≠ some t := by
  intro v hv
  rcases List.mem_map.mp hv with ⟨w, hw, hmap⟩
  by_cases hid : w.id = u.id
  · rw [if_pos hid] at hmap
    rw [← hmap]
    simp
  · rw [if_neg hid] at hmap
    subst hmap
    intro hvt
    exact hid (congrArg User.id (huniq w hw hvt))

/-- C3: a reset token is accepted exactly once.  For a user holding an
unexpired token (and being its only holder, as tokens are fresh UUIDs), the
first consumeReset answers 200, stores the hash of the new password and
nulls both reset fields; running consumeReset again with the same token on
the resulting state answers 400, as does any call whose token no user holds,
and any call whose found holder carries a past expiry. -/
theorem C3_reset_token_single_use (db : DB) (u : User)
    (t newPw newPw2 : String) (now now2 : Int)
    (hu : u ∈ db.users)
    (hold : u.resetToken = some t)
    (hunexp : expiryExpired u.resetTokenExpiry now = false)
    (huniq : ∀ v ∈ db.users, v.resetToken = some t → v = u) :
    (consumeReset db t newPw now).2 = .ok 200 "Password reset successful" ∧
    (∀ v ∈ (consumeReset db t newPw now).1.users, v.id = u.id →
        v.password = bcryptHash newPw 10 ∧
        v.resetToken = none ∧ v.resetTokenExpiry = none) ∧
    (consumeReset (consumeReset db t newPw now).1 t newPw2 now2).2 =
      .err 400 "Invalid or expired reset token" ∧
    (∀ db2 t2 pw n, (∀ v ∈ DB.users db2, v.resetToken ≠ some t2) →
        (consumeReset db2 t2 pw n).2 = .err 400 "Invalid or expired reset token") ∧
    (∀ db2 t2 pw n v, findUserByResetToken db2 t2 = some v →
        expiryExpired v.resetTokenExpiry n = true →
        (consumeReset db2 t2 pw n).2 = .err 400 "Invalid or expired reset token") := by
  have hfind := findUserByResetToken_eq db t u hu hold huniq
  have hrun := consumeReset_success db u t newPw now hfind hunexp
  refine ⟨by rw [hrun], ?_, ?_, ?_, ?_⟩
  · rw [hrun]
    intro v hv hid
    rcases List.mem_map.mp hv with ⟨w, hw, hmap⟩
    by_cases hwid : w.id = u.id
    · rw [if_pos hwid] at hmap
      rw [← hmap]
      exact ⟨rfl, rfl, rfl⟩
    · rw [if_neg hwid] at hmap
      exact absurd (hmap ▸ hid) hwid
  · rw [hrun]
    exact congrArg Prod.snd
      (consumeReset_no_holder _ t newPw2 now2
        (consumeReset_clears db u t newPw huniq))
  · intro db2 t2 pw n h
    rw [consumeReset_no_holder db2 t2 pw n h]
  · intro db2 t2 pw n v hfind2 hexp2
    rw [consumeReset_expired db2 v t2 pw n hfind2 hexp2]

/-- C3 witness. -/
theorem C3_witness :
    (consumeReset ⟨[⟨1, "a@x.com", "h0", "ATTENDEE", some "tok", some 100⟩],
        [], [], []⟩ "tok" "newpw" 50).2 = .ok 200 "Password reset successful" ∧
    (consumeReset (consumeReset ⟨[⟨1, "a@x.com", "h0", "ATTENDEE", some "tok",
        some 100⟩], [], [], []⟩ "tok" "newpw" 50).1 "tok" "other" 50).2 =
      .err 400 "Invalid or expired reset token" := by
  have h := C3_reset_token_single_use
    ⟨[⟨1, "a@x.com", "h0", "ATTENDEE", some "tok", some 100⟩], [], [], []⟩
    ⟨1, "a@x.com", "h0", "ATTENDEE", some "tok", some 100⟩
    "tok" "newpw" "other" 50 50
    (by simp) rfl (by decide) (by decide)
  exact ⟨h.1, h.2.2.1⟩

/-- C10: consumeReset applies no validation to the new password.  Unlike
register — whose middleware rejects any password under 8 characters with a
400 — a consumeReset call backed by a valid unexpired token succeeds with a
password shorter than 8 characters and stores its hash. -/
theorem C10_consumeReset_accepts_short_password (db : DB) (u : User)
    (t newPw : String) (now : Int)
    (hu : u ∈ db.users)
    (hold : u.resetToken = some t)
    (hunexp : expiryExpired u.resetTokenExpiry now = false)
    (huniq : ∀ v ∈ db.users, v.resetToken = some t → v = u)
    (hshort : newPw.length < 8) :
    validatePassword newPw = false ∧
    (consumeReset db t newPw now).2 = .ok 200 "Password reset successful" ∧
    (∀ v ∈ (consumeReset db t newPw now).1.users, v.id = u.id →
        v.password = bcryptHash newPw 10) ∧
    (∀ db2 freshId role, registerUser db2 freshId "a@b.cd" newPw role =
        (db2, .err 400 "Password must be at least 8 characters long")) := by
  have hvp : validatePassword newPw = false := by
    simp only [validatePassword, ge_iff_le, decide_eq_false_iff_not, not_le]
    exact hshort
  have hfind := findUserByResetToken_eq db t u hu hold huniq
  have hrun := consumeReset_success db u t newPw now hfind hunexp
  refine ⟨hvp, by rw [hrun], ?_, ?_⟩
  · rw [hrun]
    intro v hv hid
    rcases List.mem_map.mp hv with ⟨w, hw, hmap⟩
    by_cases hwid : w.id = u.id
    · rw [if_pos hwid] at hmap
      rw [← hmap]
    · rw [if_neg hwid] at hmap
      exact absurd (hmap ▸ hid) hwid
  · intro db2 freshId role
    have hval : validateRegisterData "a@b.cd" newPw role =
        some (400, "Password must be at least 8 characters long") := by
      unfold validateRegisterData
      have he : validateEmail "a@b.cd" = true := by decide
      rw [he, hvp]
      simp
    simp only [registerUser, hval]

/-- C10 witness. -/
theorem C10_witness :
    validatePassword "abc" = false ∧
    (consumeReset ⟨[⟨1, "a@x.com", "h0", "ATTENDEE", some "tok", some 100⟩],
        [], [], []⟩ "tok" "abc" 50).2 = .ok 200 "Password reset successful" := by
  have h := C10_consumeReset_accepts_short_password
    ⟨[⟨1, "a@x.com", "h0", "ATTENDEE", some "tok", some 100⟩], [], [], []⟩
    ⟨1, "a@x.com", "h0", "ATTENDEE", some "tok", some 100⟩
    "tok" "abc" 50
    (by simp) rfl (by decide) (by decide) (by decide)
  exact ⟨h.1, h.2.1⟩

/-- C4: mutation of an event by an ATTENDEE requester fails 403 for both
update and delete regardless of the store contents; a non-ATTENDEE requester
gets 404 on an unknown eventId, and 403 on an existing event whose
organizerId is not the requester id when the requester is not ADMIN. -/
theorem C4_event_mutation_authorization (db : DB) (requester : User)
    (eventId : Nat) (patch : EventPatch) :
    (requester.role = "ATTENDEE" →
      (updateEvent db requester eventId patch).2 =
        .err 403 "You do not have permission to perform this action" ∧
      (deleteEvent db requester eventId).2 =
        .err 403 "You do not have permission to perform this action") ∧
    (requester.role ≠ "ATTENDEE" → findEventById db eventId = none →
      (updateEvent db requester eventId patch).2 = .err 404 "Event not found" ∧
      (deleteEvent db requester eventId).2 = .err 404 "Event not found") ∧
    (∀ e, requester.role ≠ "ATTENDEE" → requester.role ≠ "ADMIN" →
      findEventById db eventId = some e → e.organizerId ≠ requester.id →
      (updateEvent db requester eventId patch).2 =
        .err 403 "Forbidden: You do not have permission to update this event" ∧
      (deleteEvent db requester eventId).2 =
        .err 403 "Forbidden: You do not have permission to delete this event") := by
  refine ⟨?_, ?_, ?_⟩
  · intro hrole
    constructor <;> simp [updateEvent, deleteEvent, hrole]
  · intro hrole hfind
    constructor <;> simp [updateEvent, deleteEvent, hrole, hfind]
  · intro e hrole hadmin hfind horg
    constructor <;>
      simp [updateEvent, deleteEvent, hrole, hadmin, hfind, horg]

/-- C4 witness. -/
theorem C4_witness :
    (updateEvent ⟨[], [⟨3, "t", "d", 0, "l", 1, "c"⟩], [], []⟩
        ⟨2, "a@x.com", "h", "ATTENDEE", none, none⟩ 3 ⟨"t2", "d2", 5, "l2"⟩).2 =
      .err 403 "You do not have permission to perform this action" ∧
    (deleteEvent ⟨[], [⟨3, "t", "d", 0, "l", 1, "c"⟩], [], []⟩
        ⟨4, "p@x.com", "h", "ORGANIZER", none, none⟩ 99).2 =
      .err 404 "Event not found" ∧
    (updateEvent ⟨[], [⟨3, "t", "d", 0, "l", 1, "c"⟩], [], []⟩
        ⟨4, "p@x.com", "h", "ORGANIZER", none, none⟩ 3 ⟨"t2", "d2", 5, "l2"⟩).2 =
      .err 403 "Forbidden: You do not have permission to update this event" := by
  refine ⟨?_, ?_, ?_⟩
  · exact ((C4_event_mutation_authorization _ _ 3 _).1 rfl).1
  · exact ((C4_event_mutation_authorization ⟨[], [⟨3, "t", "d", 0, "l", 1, "c"⟩], [], []⟩
      ⟨4, "p@x.com", "h", "ORGANIZER", none, none⟩ 99 ⟨"t2", "d2", 5, "l2"⟩).2.1
      (by decide) (by decide)).2
  · exact ((C4_event_mutation_authorization ⟨[], [⟨3, "t", "d", 0, "l", 1, "c"⟩], [], []⟩
      ⟨4, "p@x.com", "h", "ORGANIZER", none, none⟩ 3 ⟨"t2", "d2", 5, "l2"⟩).2.2
      ⟨3, "t", "d", 0, "l", 1, "c"⟩ (by decide) (by decide) (by decide) (by decide)).1

theorem regCount_eq_zero (db : DB) (uid eid : Nat)
    (h : findRegistration db uid eid = none) : regCount db uid eid = 0 := by
  unfold regCount
  rw [List.length_eq_zero, List.filter_eq_nil_iff]
  exact List.find?_eq_none.mp h

theorem feedbackCount_eq_zero (db : DB) (uid eid : Nat)
    (h : findFeedback db uid eid = none) : feedbackCount db uid eid = 0 := by
  unfold feedbackCount
  rw [List.length_eq_zero, List.filter_eq_nil_iff]
  exact List.find?_eq_none.mp h

/-- C5: registering for an event answers 404 when the event is absent, 400
when the (user, event) registration already exists alongside the event, and
otherwise inserts the one row; after two successive calls for the same pair
the second answers 400 and exactly one Registration row for the pair
exists. -/
theorem C5_registration_unique (db : DB) (uid eid id1 id2 : Nat) :
    (findEventById db eid = none →
      registerForEvent db id1 uid eid = (db, .err 404 "Event not found")) ∧
    (∀ e r, findEventById db eid = some e →
      findRegistration db uid eid = some r →
      registerForEvent db id1 uid eid =
        (db, .err 400 "You are already registered for this event")) ∧
    (∀ e, findEventById db eid = some e →
      findRegistration db uid eid = none →
      (registerForEvent db id1 uid eid).2 = .ok 201 ⟨id1, uid, eid⟩ ∧
      regCount (registerForEvent db id1 uid eid).1 uid eid = 1 ∧
      (registerForEvent (registerForEvent db id1 uid eid).1 id2 uid eid).2 =
        .err 400 "You are already registered for this event" ∧
      regCount (registerForEvent
        (registerForEvent db id1 uid eid).1 id2 uid eid).1 uid eid = 1) := by
  refine ⟨?_, ?_, ?_⟩
  · intro hfind
    simp only [registerForEvent, hfind]
  · intro e r he hr
    simp only [registerForEvent, he, hr]
  · intro e he hr
    have hrun1 : registerForEvent db id1 uid eid =
        ({ db with registrations := db.registrations ++ [⟨id1, uid, eid⟩] },
         .ok 201 ⟨id1, uid, eid⟩) := by
      simp only [registerForEvent, he, hr]
    have hfilter : (db.registrations.filter fun r =>
        r.userId == uid && r.eventId == eid) = [] := by
      rw [List.filter_eq_nil_iff]
      exact List.find?_eq_none.mp hr
    have hcount1 : regCount { db with
        registrations := db.registrations ++ [⟨id1, uid, eid⟩] } uid eid = 1 := by
      unfold regCount
      rw [List.filter_append, hfilter]
      simp
    have hfind1 : findRegistration { db with
        registrations := db.registrations ++ [⟨id1, uid, eid⟩] } uid eid =
        some ⟨id1, uid, eid⟩ := by
      unfold findRegistration at hr ⊢
      rw [find_append_of_left_none _ _ _ hr]
      simp
    have hrun2 : registerForEvent { db with
        registrations := db.registrations ++ [⟨id1, uid, eid⟩] } id2 uid eid =
        ({ db with registrations := db.registrations ++ [⟨id1, uid, eid⟩] },
         .err 400 "You are already registered for this event") := by
      have he1 : findEventById { db with
          registrations := db.registrations ++ [⟨id1, uid, eid⟩] } eid = some e := he
      simp only [registerForEvent, he1, hfind1]
    rw [hrun1]
    exact ⟨rfl, hcount1, by rw [hrun2], by rw [hrun2]; exact hcount1⟩

/-- C5 witness. -/
theorem C5_witness :
    (registerForEvent ⟨[], [⟨3, "t", "d", 0, "l", 1, "c"⟩], [], []⟩
      10 7 3).2 = .ok 201 ⟨10, 7, 3⟩ ∧
    (registerForEvent (registerForEvent ⟨[], [⟨3, "t", "d", 0, "l", 1, "c"⟩],
      [], []⟩ 10 7 3).1 11 7 3).2 =
      .err 400 "You are already registered for this event" ∧
    regCount (registerForEvent (registerForEvent
      ⟨[], [⟨3, "t", "d", 0, "l", 1, "c"⟩], [], []⟩ 10 7 3).1 11 7 3).1 7 3 = 1 := by
  have h := (C5_registration_unique
    ⟨[], [⟨3, "t", "d", 0, "l", 1, "c"⟩], [], []⟩ 7 3 10 11).2.2
    ⟨3, "t", "d", 0, "l", 1, "c"⟩ (by decide) (by decide)
  exact ⟨h.1, h.2.2.1, h.2.2.2⟩

/-- C6: feedback needs a prior registration (400 otherwise); with one, the
first submission for a pair inserts a row and answers 201, every later
submission overwrites the text in place and answers 200, leaving exactly one
Feedback row for the pair carrying the latest text. -/
theorem C6_feedback_upsert (db : DB) (uid eid fid1 fid2 : Nat)
    (text1 text2 : String) :
    (findRegistration db uid eid = none →
      submitFeedback db fid1 uid eid text1 =
        (db, .err 400 "You are not registered for this event")) ∧
    (∀ r ex, findRegistration db uid eid = some r →
      findFeedback db uid eid = some ex →
      (submitFeedback db fid1 uid eid text1).2 =
        .ok 200 { ex with feedback := text1 } ∧
      feedbackCount (submitFeedback db fid1 uid eid text1).1 uid eid =
        feedbackCount db uid eid) ∧
    (∀ r, findRegistration db uid eid = some r →
      findFeedback db uid eid = none →
      (submitFeedback db fid1 uid eid text1).2 = .ok 201 ⟨fid1, uid, eid, text1⟩ ∧
      (submitFeedback (submitFeedback db fid1 uid eid text1).1
        fid2 uid eid text2).2 = .ok 200 ⟨fid1, uid, eid, text2⟩ ∧
      feedbackCount (submitFeedback (submitFeedback db fid1 uid eid text1).1
        fid2 uid eid text2).1 uid eid = 1 ∧
      (∀ f ∈ (submitFeedback (submitFeedback db fid1 uid eid text1).1
          fid2 uid eid text2).1.feedbacks,
        f.userId = uid → f.eventId = eid → f.feedback = text2)) := by
  refine ⟨?_, ?_, ?_⟩
  · intro hreg
    simp only [submitFeedback, hreg]
  · intro r ex hreg hfb
    constructor
    · simp only [submitFeedback, hreg, hfb]
    · simp only [submitFeedback, hreg, hfb]
      unfold feedbackCount
      apply length_filter_map_of_pres
      intro x
      by_cases hx : x.id = ex.id <;> simp [hx]
  · intro r hreg hnofb
    have hrun1 : submitFeedback db fid1 uid eid text1 =
        ({ db with feedbacks := db.feedbacks ++ [⟨fid1, uid, eid, text1⟩] },
         .ok 201 ⟨fid1, uid, eid, text1⟩) := by
      simp only [submitFeedback, hreg, hnofb]
    have hfilter : (db.feedbacks.filter fun f =>
        f.userId == uid && f.eventId == eid) = [] := by
      rw [List.filter_eq_nil_iff]
      exact List.find?_eq_none.mp hnofb
    have hfind1 : findFeedback { db with
        feedbacks := db.feedbacks ++ [⟨fid1, uid, eid, text1⟩] } uid eid =
        some ⟨fid1, uid, eid, text1⟩ := by
      unfold findFeedback at hnofb ⊢
      rw [find_append_of_left_none _ _ _ hnofb]
      simp
    have hreg1 : findRegistration { db with
        feedbacks := db.feedbacks ++ [⟨fid1, uid, eid, text1⟩] } uid eid =
        some r := hreg
    rw [hrun1]
    refine ⟨rfl, ?_, ?_, ?_⟩
    · simp only [submitFeedback, hreg1, hfind1]
    · simp only [submitFeedback, hreg1, hfind1]
      unfold feedbackCount
      rw [length_filter_map_of_pres]
      · rw [List.filter_append, hfilter]
        simp
      · intro x
        by_cases hx : x.id = fid1 <;> simp [hx]
    · simp only [submitFeedback, hreg1, hfind1]
      intro f hf hfu hfe
      rcases List.mem_map.mp hf with ⟨w, hw, hmap⟩
      rcases List.mem_append.mp hw with hw | hw
      · exfalso
        have hnp := List.find?_eq_none.mp hnofb w hw
        apply hnp
        have hwu : w.userId = uid := by
          rw [← hfu, ← hmap]
          by_cases hwid : w.id = fid1 <;> simp [hwid]
        have hwe : w.eventId = eid := by
          rw [← hfe, ← hmap]
          by_cases hwid : w.id = fid1 <;> simp [hwid]
        simp [hwu, hwe]
      · have hwnf : w = ⟨fid1, uid, eid, text1⟩ := by simpa using hw
        subst hwnf
        rw [← hmap]
        simp

/-- C6 witness. -/
theorem C6_witness :
    (submitFeedback ⟨[], [], [⟨10, 7, 3⟩], []⟩ 20 7 3 "great").2 =
      .ok 201 ⟨20, 7, 3, "great"⟩ ∧
    (submitFeedback (submitFeedback ⟨[], [], [⟨10, 7, 3⟩], []⟩
      20 7 3 "great").1 21 7 3 "meh").2 = .ok 200 ⟨20, 7, 3, "meh"⟩ ∧
    feedbackCount (submitFeedback (submitFeedback ⟨[], [], [⟨10, 7, 3⟩], []⟩
      20 7 3 "great").1 21 7 3 "meh").1 7 3 = 1 := by
  have h := (C6_feedback_upsert ⟨[], [], [⟨10, 7, 3⟩], []⟩ 7 3 20 21
    "great" "meh").2.2 ⟨10, 7, 3⟩ (by decide) (by decide)
  exact ⟨h.1, h.2.1, h.2.2.1⟩

/-- C7, counterexample: with sortBy "date" and sortOrder "DESC" — which is
not the exact string "desc" — the handler applies descending order, not the
ascending default the claim requires for every value other than "desc". -/
theorem C7_counterexample :
    buildOrderBy (some "date") (some "DESC") = some ("date", SortDir.desc) ∧
    "DESC" ≠ "desc" := by
  constructor <;> decide

/-- C7 (amended): the direction applied to the query is descending exactly
when sortOrder is present and equals "desc" after lowercasing
(case-insensitive match), and ascending in every other case, including when
sortOrder is unspecified; no orderBy is built at all without sortBy. -/
theorem C7_sort_direction (field : String) (sortOrder : Option String) :
    buildOrderBy (some field) sortOrder =
      some (field,
        if sortOrder.map toLowerJS = some "desc" then SortDir.desc
        else SortDir.asc) ∧
    buildOrderBy none sortOrder = none := by
  refine ⟨?_, rfl⟩
  cases sortOrder with
  | none => simp [buildOrderBy, sortDirOf]
  | some s =>
    simp only [buildOrderBy, sortDirOf, Option.map_some, Option.some.injEq]
    by_cases h : toLowerJS s = "desc"
    · simp [h]
    · simp [h]

/-- C8, counterexample: the path parameter "2.5" is not a positive integer,
yet the handler accepts it — parseInt reads the integer prefix 2 — and
answers 200 instead of failing with the 400 validation error the claim
requires for every non-positive-integer pageNumber. -/
theorem C8_counterexample :
    parseIntJS "2.5" = some 2 ∧
    listPage ⟨[], [], [], []⟩ "2.5" = .ok 200 [] := by
  constructor <;> rfl

/-- C8 (amended): pageNumber is read by JavaScript parseInt: the call fails
with the 400 validation error exactly when the parse yields NaN or a value
below 1 (so a non-integer string with an integer prefix at least 1, such as
"2.5", is accepted as that prefix); on success the page is the slice of the
events ordered by id ascending that skips the first (p - 1) * 10 of them,
with at most the fixed page size of 10 returned. -/
theorem C8_listPage_pagination (db : DB) (s : String) :
    (parseIntJS s = none → listPage db s = .err 400 "Invalid page number") ∧
    (∀ p : Int, parseIntJS s = some p → p < 1 →
      listPage db s = .err 400 "Invalid page number") ∧
    (∀ p : Int, parseIntJS s = some p → 1 ≤ p →
      listPage db s = .ok 200
        (((db.events.insertionSort byIdLe).drop ((p - 1).toNat * 10)).take 10) ∧
      List.Sorted byIdLe
        (((db.events.insertionSort byIdLe).drop ((p - 1).toNat * 10)).take 10) ∧
      (((db.events.insertionSort byIdLe).drop ((p - 1).toNat * 10)).take 10).length
        ≤ 10) := by
  refine ⟨?_, ?_, ?_⟩
  · intro h
    simp only [listPage, h]
  · intro p hp hlt
    simp only [listPage, hp, if_pos hlt]
  · intro p hp hge
    have hnlt : ¬ p < 1 := not_lt.mpr hge
    refine ⟨by simp only [listPage, hp, if_neg hnlt], ?_, List.length_take_le _ _⟩
    have hs : List.Sorted byIdLe (db.events.insertionSort byIdLe) :=
      List.sorted_insertionSort byIdLe db.events
    exact hs.sublist
      ((List.take_sublist _ _).trans (List.drop_sublist _ _))

/-- C8 witness. -/
theorem C8_witness :
    listPage ⟨[], [⟨2, "b", "d", 0, "l", 1, "c"⟩, ⟨1, "a", "d", 0, "l", 1, "c"⟩],
      [], []⟩ "1" =
      .ok 200 [⟨1, "a", "d", 0, "l", 1, "c"⟩, ⟨2, "b", "d", 0, "l", 1, "c"⟩] := by
  have h := ((C8_listPage_pagination
    ⟨[], [⟨2, "b", "d", 0, "l", 1, "c"⟩, ⟨1, "a", "d", 0, "l", 1, "c"⟩], [], []⟩
    "1").2.2 1 (by decide) (by decide)).1
  rw [h]
  rfl

/-- C9: requestReset on an existing user persists the fresh token and an
expiry of now + 1 hour on that user before the mail is dispatched; a failed
delivery answers 500 while the token and expiry stay persisted, a successful
one answers 200 with the same persisted state; an unknown email answers 404
with the store untouched. -/
theorem C9_requestReset_persists_before_send (db : DB) (email tok : String)
    (now : Int) (delivered : Bool) :
    (findUserByEmail db email = none →
      requestReset db email tok now delivered = (db, .err 404 "User not found")) ∧
    (∀ u, findUserByEmail db email = some u →
      (requestReset db email tok now delivered).1.users =
        updateUserById db.users u.id (fun v =>
          { v with resetToken := some tok,
                   resetTokenExpiry := some (now + 3600000) }) ∧
      (∀ v ∈ (requestReset db email tok now delivered).1.users, v.id = u.id →
        v.resetToken = some tok ∧ v.resetTokenExpiry = some (now + 3600000)) ∧
      (∃ v ∈ (requestReset db email tok now delivered).1.users, v.id = u.id) ∧
      (requestReset db email tok now delivered).2 =
        (if delivered then .ok 200 "Password reset email sent"
         else .err 500 "Failed to send password reset email")) := by
  constructor
  · intro h
    simp only [requestReset, h]
  · intro u hu
    have hred : (requestReset db email tok now delivered).1.users =
        updateUserById db.users u.id (fun v =>
          { v with resetToken := some tok,
                   resetTokenExpiry := some (now + 3600000) }) := by
      cases delivered <;> simp only [requestReset, hu] <;> rfl
    refine ⟨hred, ?_, ?_, ?_⟩
    · rw [hred]
      intro v hv hid
      rcases List.mem_map.mp hv with ⟨w, hw, hmap⟩
      by_cases hwid : w.id = u.id
      · rw [if_pos hwid] at hmap
        rw [← hmap]
        exact ⟨rfl, rfl⟩
      · rw [if_neg hwid] at hmap
        exact absurd (hmap ▸ hid) hwid
    · rw [hred]
      refine ⟨⟨u.id, u.email, u.password, u.role, some tok,
        some (now + 3600000)⟩, ?_, rfl⟩
      have humem := List.mem_of_find?_eq_some hu
      have hmem2 := List.mem_map_of_mem (fun w : User =>
        if w.id = u.id then
          ⟨w.id, w.email, w.password, w.role, some tok,
            some (now + 3600000)⟩
        else w) humem
      unfold updateUserById
      simp only [if_pos rfl] at hmem2
      convert hmem2 using 2
    · cases delivered <;> simp only [requestReset, hu] <;> rfl

/-- C9 witness. -/
theorem C9_witness :
    (requestReset ⟨[⟨2, "a@x.com", "h", "ATTENDEE", none, none⟩], [], [], []⟩
      "a@x.com" "tok" 100 false).1.users =
      [⟨2, "a@x.com", "h", "ATTENDEE", some "tok", some 3600100⟩] ∧
    (requestReset ⟨[⟨2, "a@x.com", "h", "ATTENDEE", none, none⟩], [], [], []⟩
      "a@x.com" "tok" 100 false).2 =
      .err 500 "Failed to send password reset email" := by
  have h := (C9_requestReset_persists_before_send
    ⟨[⟨2, "a@x.com", "h", "ATTENDEE", none, none⟩], [], [], []⟩
    "a@x.com" "tok" 100 false).2
    ⟨2, "a@x.com", "h", "ATTENDEE", none, none⟩ rfl
  constructor
  · rw [h.1]
    rfl
  · rw [h.2.2.2]
    rfl

end NodeEvent
